import Mathlib

/-!
Verification of the signal-scoring / level-projection engine of the trading
dashboard (source file `btc_analysis.py`).

The Python functions are shallowly embedded over exact rationals (`ℚ`): float
arithmetic is modelled as exact arithmetic; dictionary reads with defaults
(`indicators.get(key, 0)`) are modelled through a record of `Option ℚ` fields
and `Option.getD`; Python's stable `list.sort(key=...)` is modelled with the
stable `List.mergeSort`.  Display strings produced alongside the numeric
values (descriptions, log lines) are not part of the model.  Division on `ℚ`
is total (`x / 0 = 0`), whereas Python would raise `ZeroDivisionError`; the
only reachable division by a possibly-zero quantity in the source divides by
`close_price` on the bearish path, so statements about what the function
returns are made for positive (or at least non-negative) prices where the
two semantics agree.
-/

/-- Market bias, stored in `levels["bias"]` as a string in the source. -/
inductive Bias where
  | BULLISH
  | BEARISH
  | NEUTRAL
  deriving DecidableEq, Repr

/-- The indicator snapshot handed to the engine: one optional numeric value
per indicator key.  A `none` field models an absent dictionary key, which the
source replaces by `0` (or, for ATR only, by 3% of the close price). -/
structure Indicators where
  bbUpper : Option ℚ := none
  bbLower : Option ℚ := none
  sma20 : Option ℚ := none
  ema50 : Option ℚ := none
  ema200 : Option ℚ := none
  rsi : Option ℚ := none
  atr : Option ℚ := none
  macdMacd : Option ℚ := none
  macdSignal : Option ℚ := none
  adx : Option ℚ := none
  stochK : Option ℚ := none
  stochD : Option ℚ := none
  volume : Option ℚ := none
  high : Option ℚ := none
  low : Option ℚ := none
  openPrice : Option ℚ := none
  close : Option ℚ := none
  deriving DecidableEq, Repr

/-- The metrics record produced by the upstream `compute_metrics` black box;
the engine reads `rating`, `change`, `bbw` and `signal` from it. -/
structure Metrics where
  rating : ℚ
  change : ℚ
  bbw : ℚ
  signal : String
  deriving DecidableEq, Repr

/-- Support candidates (lines 148-155 of `btc_analysis.py`): the lower
Bollinger band whenever it is positive, and SMA20 / EMA50 / EMA200 when
positive and strictly below the close, sorted by ascending
`close_price - level` with Python's stable sort (line 165). -/
def buildSupportLevels (closePrice bbLower sma20 ema50 ema200 : ℚ) :
    List (String × ℚ) :=
  let cands :=
    (if 0 < bbLower then [("Bollinger Lower Band", bbLower)] else []) ++
    (if 0 < sma20 ∧ sma20 < closePrice then [("SMA20", sma20)] else []) ++
    (if 0 < ema50 ∧ ema50 < closePrice then [("EMA50", ema50)] else []) ++
    (if 0 < ema200 ∧ ema200 < closePrice then [("EMA200", ema200)] else [])
  cands.mergeSort (fun a b => decide (closePrice - a.2 ≤ closePrice - b.2))

/-- Resistance candidates (lines 157-162): the upper Bollinger band whenever
positive, and SMA20 / EMA50 when positive and strictly above the close,
sorted by ascending `level - close_price` (line 166). -/
def buildResistanceLevels (closePrice bbUpper sma20 ema50 : ℚ) :
    List (String × ℚ) :=
  let cands :=
    (if 0 < bbUpper then [("Bollinger Upper Band", bbUpper)] else []) ++
    (if 0 < sma20 ∧ closePrice < sma20 then [("SMA20", sma20)] else []) ++
    (if 0 < ema50 ∧ closePrice < ema50 then [("EMA50", ema50)] else [])
  cands.mergeSort (fun a b => decide (a.2 - closePrice ≤ b.2 - closePrice))

/-- Rating contribution to the (bullish, bearish) score pair
(lines 175-182). -/
def ratingScorePart (rating : ℚ) : Nat × Nat :=
  if 2 ≤ rating then (2, 0)
  else if rating ≤ -2 then (0, 2)
  else if 0 < rating then (1, 0)
  else if rating < 0 then (0, 1)
  else (0, 0)

/-- RSI contribution to the (bullish, bearish) score pair (lines 184-191). -/
def rsiScorePart (rsi : ℚ) : Nat × Nat :=
  if rsi < 30 then (2, 0)
  else if rsi < 40 then (1, 0)
  else if 70 < rsi then (0, 2)
  else if 60 < rsi then (0, 1)
  else (0, 0)

/-- Moving-average trend contribution to the (bullish, bearish) score pair
(lines 193-200). -/
def trendScorePart (closePrice ema50 ema200 : ℚ) : Nat × Nat :=
  if ema50 < closePrice ∧ ema200 < closePrice then (2, 0)
  else if ema50 < closePrice then (1, 0)
  else if closePrice < ema50 ∧ closePrice < ema200 then (0, 2)
  else if closePrice < ema50 then (0, 1)
  else (0, 0)

/-- The (bullish_score, bearish_score) pair accumulated in lines 172-200. -/
def scores (closePrice : ℚ) (ind : Indicators) (m : Metrics) : Nat × Nat :=
  let r := ratingScorePart m.rating
  let s := rsiScorePart (ind.rsi.getD 0)
  let t := trendScorePart closePrice (ind.ema50.getD 0) (ind.ema200.getD 0)
  (r.1 + s.1 + t.1, r.2 + s.2 + t.2)

/-- The numeric content of the `levels` dictionary returned by
`calculate_entry_exit_levels`.  Optional fields model dictionary keys that
the NEUTRAL branch leaves unset; the description strings of the source are
not modelled. -/
structure Levels where
  currentPrice : ℚ
  supportLevels : List (String × ℚ)
  resistanceLevels : List (String × ℚ)
  bias : Bias
  entryOptimal : Option ℚ
  stopLossLevel : Option ℚ
  tpTarget1 : Option ℚ
  tpTarget2 : Option ℚ
  deriving DecidableEq, Repr

/-- Best-support selection of the bullish branch (lines 211-228): prefer
SMA20 when positive and below the close, else the head of the sorted support
list when below the close, else the lower Bollinger band when positive and
below the close; alongside, the percentage distance of the chosen support
below the close. -/
def bullishSupportChoice (closePrice bbLower sma20 : ℚ)
    (supportLevels : List (String × ℚ)) : Option (String × ℚ) × ℚ :=
  let c1 : Option (String × ℚ) × ℚ :=
    if 0 < sma20 ∧ sma20 < closePrice then
      (some ("SMA20", sma20), (closePrice / sma20 - 1) * 100)
    else (none, 0)
  let c2 : Option (String × ℚ) × ℚ :=
    if c1.1 = none then
      match supportLevels with
      | [] => c1
      | s :: _ =>
        if s.2 < closePrice then (some s, (closePrice / s.2 - 1) * 100) else c1
    else c1
  if c2.1 = none ∧ 0 < bbLower ∧ bbLower < closePrice then
    (some ("Lower Bollinger Band", bbLower), (closePrice / bbLower - 1) * 100)
  else c2

/-- Best-resistance selection of the bearish branch (lines 294-311),
mirroring `bullishSupportChoice`. -/
def bearishResistanceChoice (closePrice bbUpper sma20 : ℚ)
    (resistanceLevels : List (String × ℚ)) : Option (String × ℚ) × ℚ :=
  let c1 : Option (String × ℚ) × ℚ :=
    if 0 < sma20 ∧ closePrice < sma20 then
      (some ("SMA20", sma20), (sma20 / closePrice - 1) * 100)
    else (none, 0)
  let c2 : Option (String × ℚ) × ℚ :=
    if c1.1 = none then
      match resistanceLevels with
      | [] => c1
      | r :: _ =>
        if closePrice < r.2 then (some r, (r.2 / closePrice - 1) * 100) else c1
    else c1
  if c2.1 = none ∧ 0 < bbUpper ∧ closePrice < bbUpper then
    (some ("Upper Bollinger Band", bbUpper), (bbUpper / closePrice - 1) * 100)
  else c2

/-- The BULLISH branch (lines 202-283): entry near a close support (within
2%) or at the close; stop 3% below the nearest support or 5% below entry;
target 1 at 1% below the nearest resistance, floored to 5% above entry when
that is closer than 3%; target 2 at the second resistance or a percentage
fallback. -/
def bullishLevels (closePrice bbLower sma20 : ℚ)
    (supportLevels resistanceLevels : List (String × ℚ)) : Levels :=
  let choice := bullishSupportChoice closePrice bbLower sma20 supportLevels
  let entryLevel :=
    if choice.1.isSome ∧ choice.2 ≤ 2 then
      (choice.1.getD ("", 0)).2 * (1002/1000)
    else if choice.1.isSome ∧ choice.2 ≤ 5 then closePrice
    else closePrice
  let stopLoss :=
    match supportLevels with
    | s :: _ => s.2 * (97/100)
    | [] => entryLevel * (95/100)
  let tp : ℚ × ℚ :=
    match resistanceLevels with
    | r :: rest =>
      let t1raw := r.2 * (99/100)
      let t1 :=
        if t1raw < entryLevel * (103/100) then entryLevel * (105/100)
        else t1raw
      let t2 :=
        match rest with
        | r2 :: _ => r2.2 * (99/100)
        | [] => entryLevel * (110/100)
      (t1, t2)
    | [] => (entryLevel * (106/100), entryLevel * (112/100))
  { currentPrice := closePrice
    supportLevels := supportLevels
    resistanceLevels := resistanceLevels
    bias := Bias.BULLISH
    entryOptimal := some entryLevel
    stopLossLevel := some stopLoss
    tpTarget1 := some tp.1
    tpTarget2 := some tp.2 }

/-- The BEARISH branch (lines 285-366), mirror image of `bullishLevels`. -/
def bearishLevels (closePrice bbUpper sma20 : ℚ)
    (supportLevels resistanceLevels : List (String × ℚ)) : Levels :=
  let choice := bearishResistanceChoice closePrice bbUpper sma20 resistanceLevels
  let entryLevel :=
    if choice.1.isSome ∧ choice.2 ≤ 2 then
      (choice.1.getD ("", 0)).2 * (998/1000)
    else if choice.1.isSome ∧ choice.2 ≤ 5 then closePrice
    else closePrice
  let stopLoss :=
    match resistanceLevels with
    | r :: _ => r.2 * (103/100)
    | [] => entryLevel * (105/100)
  let tp : ℚ × ℚ :=
    match supportLevels with
    | s :: rest =>
      let t1raw := s.2 * (101/100)
      let t1 :=
        if entryLevel * (97/100) < t1raw then entryLevel * (95/100)
        else t1raw
      let t2 :=
        match rest with
        | s2 :: _ => s2.2 * (101/100)
        | [] => entryLevel * (90/100)
      (t1, t2)
    | [] => (entryLevel * (94/100), entryLevel * (88/100))
  { currentPrice := closePrice
    supportLevels := supportLevels
    resistanceLevels := resistanceLevels
    bias := Bias.BEARISH
    entryOptimal := some entryLevel
    stopLossLevel := some stopLoss
    tpTarget1 := some tp.1
    tpTarget2 := some tp.2 }

/-- The NEUTRAL branch (lines 368-371): no entry, stop or targets. -/
def neutralLevels (closePrice : ℚ)
    (supportLevels resistanceLevels : List (String × ℚ)) : Levels :=
  { currentPrice := closePrice
    supportLevels := supportLevels
    resistanceLevels := resistanceLevels
    bias := Bias.NEUTRAL
    entryOptimal := none
    stopLossLevel := none
    tpTarget1 := none
    tpTarget2 := none }

/-- The validation step (lines 373-408): when bias is BULLISH and both entry
and target 1 exist, a target not above the entry is forced to 6% above it,
and an entry more than 1% above the close is forced to 1% below the close;
symmetrically for BEARISH.  Both fixes read the pre-validation entry. -/
def validateLevels (closePrice : ℚ) (l : Levels) : Levels :=
  if l.bias = Bias.BULLISH ∧ l.entryOptimal.isSome ∧ l.tpTarget1.isSome then
    let entry := l.entryOptimal.getD 0
    let tp := l.tpTarget1.getD 0
    let l1 :=
      if tp ≤ entry then { l with tpTarget1 := some (entry * (106/100)) }
      else l
    if closePrice * (101/100) < entry then
      { l1 with entryOptimal := some (closePrice * (99/100)) }
    else l1
  else if l.bias = Bias.BEARISH ∧ l.entryOptimal.isSome ∧ l.tpTarget1.isSome then
    let entry := l.entryOptimal.getD 0
    let tp := l.tpTarget1.getD 0
    let l1 :=
      if entry ≤ tp then { l with tpTarget1 := some (entry * (94/100)) }
      else l
    if entry < closePrice * (99/100) then
      { l1 with entryOptimal := some (closePrice * (101/100)) }
    else l1
  else l

/-- The pre-validation result of `calculate_entry_exit_levels`: candidate
lists, scoring, and the branch selected by comparing the two scores
(lines 127-371). -/
def rawLevels (closePrice : ℚ) (ind : Indicators) (m : Metrics) : Levels :=
  let bbUpper := ind.bbUpper.getD 0
  let bbLower := ind.bbLower.getD 0
  let sma20 := ind.sma20.getD 0
  let ema50 := ind.ema50.getD 0
  let ema200 := ind.ema200.getD 0
  let _atr := ind.atr.getD (closePrice * (3/100))
  let supportLevels := buildSupportLevels closePrice bbLower sma20 ema50 ema200
  let resistanceLevels := buildResistanceLevels closePrice bbUpper sma20 ema50
  let sc := scores closePrice ind m
  if sc.2 < sc.1 then
    bullishLevels closePrice bbLower sma20 supportLevels resistanceLevels
  else if sc.1 < sc.2 then
    bearishLevels closePrice bbUpper sma20 supportLevels resistanceLevels
  else neutralLevels closePrice supportLevels resistanceLevels

/-- `calculate_entry_exit_levels` (lines 120-410): branch levels followed by
the validation step. -/
def calculate_entry_exit_levels (closePrice : ℚ) (ind : Indicators)
    (m : Metrics) : Levels :=
  validateLevels closePrice (rawLevels closePrice ind m)

/-- One outcome of the provider call inside `get_analysis_with_retry`:
a valid analysis (truthy mapping with a non-null entry for the requested
symbol), an empty/invalid response, or one of the three handled exception
classes (JSON decode, connection, other). -/
inductive FetchResp (α : Type) where
  | valid (data : α)
  | empty
  | jsonError
  | connError
  | otherError
  deriving DecidableEq, Repr

/-- `get_analysis_with_retry` (lines 48-117), modelled over the list of
outcomes the provider would give on successive attempts; the list length
plays the role of `max_retries`.  Returns the final result, the list of
sleep durations performed, and the number of provider invocations.  On every
retryable failure that is not the last attempt the function sleeps the
current delay, then multiplies the delay by 3/2; a valid outcome returns
immediately; exhaustion returns `none`. -/
def get_analysis_with_retry {α : Type} :
    List (FetchResp α) → ℚ → Option α × List ℚ × Nat
  | [], _ => (none, [], 0)
  | r :: rest, delay =>
    match r with
    | .valid d => (some d, [], 1)
    | _ =>
      match rest with
      | [] => (none, [], 1)
      | r2 :: rest2 =>
        let res := get_analysis_with_retry (r2 :: rest2) (delay * (3/2))
        (res.1, delay :: res.2.1, res.2.2 + 1)

/-- What `analysis[symbol]` looks like to the orchestrator after a
successful fetch: key absent, null value, or actual indicator data. -/
inductive SymbolEntry where
  | missing
  | null
  | data (ind : Indicators)
  deriving DecidableEq, Repr

/-- The behaviors of the collaborators of `analyze_btc_daily` during one
run: the overall fetch outcome (`none` models retry exhaustion), the
`compute_metrics` black box, and whether some exception is raised inside the
`try` block (scoring, projection or assembly); such an exception is caught
by the `except Exception` handler at line 934. -/
structure OrchestratorBehavior where
  fetch : Option SymbolEntry
  computeMetrics : Indicators → Option Metrics
  assemblyExc : Bool

/-- Recommendation labels of lines 630-644. -/
inductive Recommendation where
  | STRONG_BUY
  | BUY
  | STRONG_SELL
  | SELL
  | NEUTRAL_HOLD
  deriving DecidableEq, Repr

/-- Action labels of lines 630-644. -/
inductive TradeAction where
  | LONG
  | SHORT
  | WAIT
  deriving DecidableEq, Repr

/-- The secondary 4-signal tally of lines 574-604: strong rating, RSI
extremes, MACD divergence sign, and price versus EMA50. -/
def signalTally (closePrice rsi macdDiv ema50 rating : ℚ) : Nat × Nat :=
  let s1 : Nat × Nat :=
    if 2 ≤ rating then (1, 0) else if rating ≤ -2 then (0, 1) else (0, 0)
  let s2 : Nat × Nat :=
    if rsi < 30 then (1, 0) else if 70 < rsi then (0, 1) else (0, 0)
  let s3 : Nat × Nat := if 0 < macdDiv then (1, 0) else (0, 1)
  let s4 : Nat × Nat := if ema50 < closePrice then (1, 0) else (0, 1)
  (s1.1 + s2.1 + s3.1 + s4.1, s1.2 + s2.2 + s3.2 + s4.2)

/-- The recommendation chosen from the 4-signal tally (lines 630-644). -/
def recommendationOf (bull bear : Nat) : Recommendation :=
  if bear + 1 < bull then .STRONG_BUY
  else if bear < bull then .BUY
  else if bull + 1 < bear then .STRONG_SELL
  else if bull < bear then .SELL
  else .NEUTRAL_HOLD

/-- The action chosen from the 4-signal tally (lines 630-644). -/
def actionOf (bull bear : Nat) : TradeAction :=
  if bear + 1 < bull then .LONG
  else if bear < bull then .LONG
  else if bull + 1 < bear then .SHORT
  else if bull < bear then .SHORT
  else .WAIT

/-- The result record assembled by `analyze_btc_daily` (lines 902-932);
the `signal_details` list of display strings is not modelled. -/
structure AnalysisResult where
  price : ℚ
  change : ℚ
  rating : ℚ
  recommendation : Recommendation
  action : TradeAction
  levels : Levels
  openPrice : ℚ
  high : ℚ
  low : ℚ
  volume : ℚ
  bbUpper : ℚ
  bbLower : ℚ
  sma20 : ℚ
  bbw : ℚ
  rsi : ℚ
  ema50 : ℚ
  ema200 : ℚ
  macd : ℚ
  macdSignal : ℚ
  adx : ℚ
  stochK : ℚ
  stochD : ℚ
  bullishSignals : Nat
  bearishSignals : Nat
  deriving DecidableEq, Repr

/-- The successful-path assembly of `analyze_btc_daily` (lines 454-932):
indicator extraction, the 4-signal tally, recommendation/action, the level
projection, and the final record. -/
def assembleResult (ind : Indicators) (m : Metrics) : AnalysisResult :=
  let closePrice := ind.close.getD 0
  let macd := ind.macdMacd.getD 0
  let macdSignal := ind.macdSignal.getD 0
  let tally :=
    signalTally closePrice (ind.rsi.getD 0) (macd - macdSignal)
      (ind.ema50.getD 0) m.rating
  { price := closePrice
    change := m.change
    rating := m.rating
    recommendation := recommendationOf tally.1 tally.2
    action := actionOf tally.1 tally.2
    levels := calculate_entry_exit_levels closePrice ind m
    openPrice := ind.openPrice.getD 0
    high := ind.high.getD 0
    low := ind.low.getD 0
    volume := ind.volume.getD 0
    bbUpper := ind.bbUpper.getD 0
    bbLower := ind.bbLower.getD 0
    sma20 := ind.sma20.getD 0
    bbw := m.bbw
    rsi := ind.rsi.getD 0
    ema50 := ind.ema50.getD 0
    ema200 := ind.ema200.getD 0
    macd := macd
    macdSignal := macdSignal
    adx := ind.adx.getD 0
    stochK := ind.stochK.getD 0
    stochD := ind.stochD.getD 0
    bullishSignals := tally.1
    bearishSignals := tally.2 }

/-- `analyze_btc_daily` (lines 413-938) as a function of its collaborators'
behaviors: `none` on fetch exhaustion (line 431), on a missing or null
symbol entry (line 441), on a failed metrics computation (line 450), and on
any exception inside the `try` block (line 934); otherwise the fully
assembled result. -/
def analyze_btc_daily (b : OrchestratorBehavior) : Option AnalysisResult :=
  match b.fetch with
  | none => none
  | some entry =>
    if b.assemblyExc then none
    else
      match entry with
      | .missing => none
      | .null => none
      | .data ind =>
        match b.computeMetrics ind with
        | none => none
        | some m => some (assembleResult ind m)

/-- The failure situations in which `analyze_btc_daily` returns `None`
rather than a result. -/
def analysisFailure (b : OrchestratorBehavior) : Prop :=
  b.fetch = none ∨ b.fetch = some SymbolEntry.missing ∨
  b.fetch = some SymbolEntry.null ∨ b.assemblyExc = true ∨
  ∃ ind, b.fetch = some (SymbolEntry.data ind) ∧ b.computeMetrics ind = none

/-- The support/resistance ordering claimed by property P2 of the spec,
stated for the support side: strictly increasing distance below the price
and no level at or above the price. -/
def specSupportOrdered (closePrice : ℚ) (l : List (String × ℚ)) : Prop :=
  l.Pairwise (fun a b => closePrice - a.2 < closePrice - b.2) ∧
  ∀ x ∈ l, x.2 < closePrice

section ListLemmas

theorem mergeSort_two {α : Type} (le : α → α → Bool) (a b : α) :
    List.mergeSort [a, b] le = if le a b then [a, b] else [b, a] := by
  rw [List.mergeSort]
  simp [List.splitInTwo, List.splitAt, List.splitAt.go, List.merge]

theorem mergeSort_three {α : Type} (le : α → α → Bool) (a b c : α) :
    List.mergeSort [a, b, c] le =
      List.merge (List.mergeSort [a, b] le) [c] le := by
  rw [List.mergeSort]
  simp [List.splitInTwo, List.splitAt, List.splitAt.go]

theorem mem_buildSupportLevels {closePrice bbLower sma20 ema50 ema200 : ℚ}
    {x : String × ℚ}
    (hx : x ∈ buildSupportLevels closePrice bbLower sma20 ema50 ema200) :
    0 < x.2 ∧ (x.1 ≠ "Bollinger Lower Band" → x.2 < closePrice) := by
  rw [buildSupportLevels, List.mem_mergeSort] at hx
  simp only [List.mem_append] at hx
  rcases hx with ((h | h) | h) | h <;> split_ifs at h <;> simp_all

theorem mem_buildResistanceLevels {closePrice bbUpper sma20 ema50 : ℚ}
    {x : String × ℚ}
    (hx : x ∈ buildResistanceLevels closePrice bbUpper sma20 ema50) :
    0 < x.2 ∧ (x.1 ≠ "Bollinger Upper Band" → closePrice < x.2) := by
  rw [buildResistanceLevels, List.mem_mergeSort] at hx
  simp only [List.mem_append] at hx
  rcases hx with (h | h) | h <;> split_ifs at h <;> simp_all

theorem sorted_buildSupportLevels (closePrice bbLower sma20 ema50 ema200 : ℚ) :
    (buildSupportLevels closePrice bbLower sma20 ema50 ema200).Pairwise
      (fun a b => closePrice - a.2 ≤ closePrice - b.2) := by
  have h := @List.sorted_mergeSort (String × ℚ)
    (fun a b => decide (closePrice - a.2 ≤ closePrice - b.2))
    (by intro a b c hab hbc; simp_all; linarith)
    (by intro a b
        simp only [Bool.or_eq_true, decide_eq_true_eq]
        exact le_total _ _)
    ((if 0 < bbLower then [("Bollinger Lower Band", bbLower)] else []) ++
     (if 0 < sma20 ∧ sma20 < closePrice then [("SMA20", sma20)] else []) ++
     (if 0 < ema50 ∧ ema50 < closePrice then [("EMA50", ema50)] else []) ++
     (if 0 < ema200 ∧ ema200 < closePrice then [("EMA200", ema200)] else []))
  rw [buildSupportLevels]
  exact h.imp (by intro a b hab; simpa using hab)

theorem sorted_buildResistanceLevels (closePrice bbUpper sma20 ema50 : ℚ) :
    (buildResistanceLevels closePrice bbUpper sma20 ema50).Pairwise
      (fun a b => a.2 - closePrice ≤ b.2 - closePrice) := by
  have h := @List.sorted_mergeSort (String × ℚ)
    (fun a b => decide (a.2 - closePrice ≤ b.2 - closePrice))
    (by intro a b c hab hbc; simp_all; linarith)
    (by intro a b
        simp only [Bool.or_eq_true, decide_eq_true_eq]
        exact le_total _ _)
    ((if 0 < bbUpper then [("Bollinger Upper Band", bbUpper)] else []) ++
     (if 0 < sma20 ∧ closePrice < sma20 then [("SMA20", sma20)] else []) ++
     (if 0 < ema50 ∧ closePrice < ema50 then [("EMA50", ema50)] else []))
  rw [buildResistanceLevels]
  exact h.imp (by intro a b hab; simpa using hab)

theorem buildSupportLevels_eq_nil {closePrice bbLower sma20 ema50 ema200 : ℚ}
    (h : buildSupportLevels closePrice bbLower sma20 ema50 ema200 = []) :
    ¬ 0 < bbLower ∧ ¬ (0 < sma20 ∧ sma20 < closePrice) := by
  constructor
  · intro hbb
    have : ("Bollinger Lower Band", bbLower) ∈
        buildSupportLevels closePrice bbLower sma20 ema50 ema200 := by
      rw [buildSupportLevels, List.mem_mergeSort]
      simp [hbb]
    simp [h] at this
  · intro hs
    have : ("SMA20", sma20) ∈
        buildSupportLevels closePrice bbLower sma20 ema50 ema200 := by
      rw [buildSupportLevels, List.mem_mergeSort]
      simp [hs]
    simp [h] at this

end ListLemmas

section ValidateLemmas

theorem validateLevels_bias (closePrice : ℚ) (l : Levels) :
    (validateLevels closePrice l).bias = l.bias := by
  simp only [validateLevels]
  split_ifs <;> rfl

theorem validateLevels_supportLevels (closePrice : ℚ) (l : Levels) :
    (validateLevels closePrice l).supportLevels = l.supportLevels := by
  simp only [validateLevels]
  split_ifs <;> rfl

theorem validateLevels_resistanceLevels (closePrice : ℚ) (l : Levels) :
    (validateLevels closePrice l).resistanceLevels = l.resistanceLevels := by
  simp only [validateLevels]
  split_ifs <;> rfl

theorem validateLevels_bullish (closePrice : ℚ) (l : Levels)
    (hb : l.bias = Bias.BULLISH) (e t : ℚ)
    (he : l.entryOptimal = some e) (ht : l.tpTarget1 = some t)
    (hepos : 0 < e) (hc : 0 < closePrice) :
    ∀ e' t', (validateLevels closePrice l).entryOptimal = some e' →
      (validateLevels closePrice l).tpTarget1 = some t' →
      e' < t' ∧ e' ≤ closePrice * (101/100) := by
  intro e' t' he' ht'
  rw [validateLevels] at he' ht'
  rw [if_pos (by simp [hb, he, ht])] at he' ht'
  simp only [he, ht, Option.getD_some] at he' ht'
  split_ifs at he' ht' with h1 h2 h2 <;> simp_all <;>
    (try constructor) <;> nlinarith

theorem validateLevels_bearish (closePrice : ℚ) (l : Levels)
    (hb : l.bias = Bias.BEARISH) (e t : ℚ)
    (he : l.entryOptimal = some e) (ht : l.tpTarget1 = some t)
    (hepos : 0 < e) (hc : 0 < closePrice) :
    ∀ e' t', (validateLevels closePrice l).entryOptimal = some e' →
      (validateLevels closePrice l).tpTarget1 = some t' →
      t' < e' ∧ closePrice * (99/100) ≤ e' := by
  intro e' t' he' ht'
  rw [validateLevels] at he' ht'
  rw [if_neg (by simp [hb]), if_pos (by simp [hb, he, ht])] at he' ht'
  simp only [he, ht, Option.getD_some] at he' ht'
  split_ifs at he' ht' with h1 h2 h2 <;> simp_all <;>
    (try constructor) <;> nlinarith

end ValidateLemmas

section BranchLemmas

theorem rawLevels_unfold (closePrice : ℚ) (ind : Indicators) (m : Metrics) :
    rawLevels closePrice ind m =
      (if (scores closePrice ind m).2 < (scores closePrice ind m).1 then
        bullishLevels closePrice (ind.bbLower.getD 0) (ind.sma20.getD 0)
          (buildSupportLevels closePrice (ind.bbLower.getD 0)
            (ind.sma20.getD 0) (ind.ema50.getD 0) (ind.ema200.getD 0))
          (buildResistanceLevels closePrice (ind.bbUpper.getD 0)
            (ind.sma20.getD 0) (ind.ema50.getD 0))
      else if (scores closePrice ind m).1 < (scores closePrice ind m).2 then
        bearishLevels closePrice (ind.bbUpper.getD 0) (ind.sma20.getD 0)
          (buildSupportLevels closePrice (ind.bbLower.getD 0)
            (ind.sma20.getD 0) (ind.ema50.getD 0) (ind.ema200.getD 0))
          (buildResistanceLevels closePrice (ind.bbUpper.getD 0)
            (ind.sma20.getD 0) (ind.ema50.getD 0))
      else
        neutralLevels closePrice
          (buildSupportLevels closePrice (ind.bbLower.getD 0)
            (ind.sma20.getD 0) (ind.ema50.getD 0) (ind.ema200.getD 0))
          (buildResistanceLevels closePrice (ind.bbUpper.getD 0)
            (ind.sma20.getD 0) (ind.ema50.getD 0))) := rfl

theorem calc_supportLevels (closePrice : ℚ) (ind : Indicators) (m : Metrics) :
    (calculate_entry_exit_levels closePrice ind m).supportLevels =
      buildSupportLevels closePrice (ind.bbLower.getD 0) (ind.sma20.getD 0)
        (ind.ema50.getD 0) (ind.ema200.getD 0) := by
  rw [calculate_entry_exit_levels, validateLevels_supportLevels,
    rawLevels_unfold]
  split_ifs <;> rfl

theorem calc_resistanceLevels (closePrice : ℚ) (ind : Indicators)
    (m : Metrics) :
    (calculate_entry_exit_levels closePrice ind m).resistanceLevels =
      buildResistanceLevels closePrice (ind.bbUpper.getD 0) (ind.sma20.getD 0)
        (ind.ema50.getD 0) := by
  rw [calculate_entry_exit_levels, validateLevels_resistanceLevels,
    rawLevels_unfold]
  split_ifs <;> rfl

theorem calc_bias (closePrice : ℚ) (ind : Indicators) (m : Metrics) :
    (calculate_entry_exit_levels closePrice ind m).bias =
      (if (scores closePrice ind m).2 < (scores closePrice ind m).1 then
        Bias.BULLISH
      else if (scores closePrice ind m).1 < (scores closePrice ind m).2 then
        Bias.BEARISH
      else Bias.NEUTRAL) := by
  rw [calculate_entry_exit_levels, validateLevels_bias, rawLevels_unfold]
  split_ifs <;> rfl

theorem calc_bias_bullish (closePrice : ℚ) (ind : Indicators) (m : Metrics) :
    (calculate_entry_exit_levels closePrice ind m).bias = Bias.BULLISH ↔
      (scores closePrice ind m).2 < (scores closePrice ind m).1 := by
  rw [calc_bias]
  split_ifs with h1 h2 <;> simp [h1, *]

theorem calc_bias_bearish (closePrice : ℚ) (ind : Indicators) (m : Metrics) :
    (calculate_entry_exit_levels closePrice ind m).bias = Bias.BEARISH ↔
      (scores closePrice ind m).1 < (scores closePrice ind m).2 := by
  rw [calc_bias]
  split_ifs with h1 h2 <;> simp [h1, *] <;> omega

theorem calc_bias_neutral (closePrice : ℚ) (ind : Indicators) (m : Metrics) :
    (calculate_entry_exit_levels closePrice ind m).bias = Bias.NEUTRAL ↔
      (scores closePrice ind m).1 = (scores closePrice ind m).2 := by
  rw [calc_bias]
  split_ifs with h1 h2 <;> simp [h1, *] <;> omega

theorem bullishSupportChoice_some {closePrice bbLower sma20 : ℚ}
    {sup : List (String × ℚ)} (hsup : ∀ x ∈ sup, 0 < x.2)
    {p : String × ℚ}
    (h : (bullishSupportChoice closePrice bbLower sma20 sup).1 = some p) :
    0 < p.2 ∧ p.2 < closePrice := by
  rcases sup with _ | ⟨s, rest⟩
  · simp only [bullishSupportChoice] at h
    split_ifs at h <;> simp_all [Prod.ext_iff] <;>
      (try constructor) <;> nlinarith
  · have hs : 0 < s.2 := hsup s (by simp)
    simp only [bullishSupportChoice] at h
    split_ifs at h <;> simp_all [Prod.ext_iff] <;>
      (try constructor) <;> nlinarith

theorem bearishResistanceChoice_some {closePrice bbUpper sma20 : ℚ}
    {res : List (String × ℚ)} (hres : ∀ x ∈ res, 0 < x.2)
    {p : String × ℚ}
    (h : (bearishResistanceChoice closePrice bbUpper sma20 res).1 = some p) :
    0 < p.2 ∧ closePrice < p.2 := by
  rcases res with _ | ⟨r, rest⟩
  · simp only [bearishResistanceChoice] at h
    split_ifs at h <;> simp_all [Prod.ext_iff] <;>
      (try constructor) <;> nlinarith
  · have hr : 0 < r.2 := hres r (by simp)
    simp only [bearishResistanceChoice] at h
    split_ifs at h <;> simp_all [Prod.ext_iff] <;>
      (try constructor) <;> nlinarith

theorem bullishLevels_entryOptimal (closePrice bbLower sma20 : ℚ)
    (sup res : List (String × ℚ)) :
    (bullishLevels closePrice bbLower sma20 sup res).entryOptimal =
      some
        (if (bullishSupportChoice closePrice bbLower sma20 sup).1.isSome ∧
            (bullishSupportChoice closePrice bbLower sma20 sup).2 ≤ 2 then
          ((bullishSupportChoice closePrice bbLower sma20 sup).1.getD
            ("", 0)).2 * (1002/1000)
        else closePrice) := by
  simp only [bullishLevels]
  split_ifs <;> rfl

theorem bullishLevels_tpTarget1 (closePrice bbLower sma20 : ℚ)
    (sup res : List (String × ℚ)) :
    ∃ t, (bullishLevels closePrice bbLower sma20 sup res).tpTarget1 = some t := by
  simp [bullishLevels]

theorem bearishLevels_entryOptimal (closePrice bbUpper sma20 : ℚ)
    (sup res : List (String × ℚ)) :
    (bearishLevels closePrice bbUpper sma20 sup res).entryOptimal =
      some
        (if (bearishResistanceChoice closePrice bbUpper sma20 res).1.isSome ∧
            (bearishResistanceChoice closePrice bbUpper sma20 res).2 ≤ 2 then
          ((bearishResistanceChoice closePrice bbUpper sma20 res).1.getD
            ("", 0)).2 * (998/1000)
        else closePrice) := by
  simp only [bearishLevels]
  split_ifs <;> rfl

theorem bearishLevels_tpTarget1 (closePrice bbUpper sma20 : ℚ)
    (sup res : List (String × ℚ)) :
    ∃ t, (bearishLevels closePrice bbUpper sma20 sup res).tpTarget1 = some t := by
  simp [bearishLevels]

end BranchLemmas

section SpecSideDefinitions

/-- The rating contribution exactly as the spec words it: `rating >= 2` gives
+2 bullish; `rating <= -2` gives +2 bearish; `0 < rating < 2` gives
+1 bullish; `-2 < rating < 0` gives +1 bearish; `rating == 0` nothing. -/
def specRatingContrib (rating : ℚ) : Nat × Nat :=
  if 2 ≤ rating then (2, 0)
  else if rating ≤ -2 then (0, 2)
  else if 0 < rating ∧ rating < 2 then (1, 0)
  else if -2 < rating ∧ rating < 0 then (0, 1)
  else (0, 0)

/-- The RSI contribution exactly as the spec words it: `RSI < 30` gives
+2 bullish; `30 ≤ RSI < 40` gives +1 bullish; `RSI > 70` gives +2 bearish;
`60 < RSI ≤ 70` gives +1 bearish; otherwise nothing. -/
def specRsiContrib (rsi : ℚ) : Nat × Nat :=
  if rsi < 30 then (2, 0)
  else if 30 ≤ rsi ∧ rsi < 40 then (1, 0)
  else if 70 < rsi then (0, 2)
  else if 60 < rsi ∧ rsi ≤ 70 then (0, 1)
  else (0, 0)

/-- The trend contribution exactly as the spec words it: close above both
EMA50 and EMA200 gives +2 bullish; above EMA50 only gives +1 bullish; below
both gives +2 bearish; below EMA50 only gives +1 bearish. -/
def specTrendContrib (closePrice ema50 ema200 : ℚ) : Nat × Nat :=
  if ema50 < closePrice ∧ ema200 < closePrice then (2, 0)
  else if ema50 < closePrice ∧ ¬ ema200 < closePrice then (1, 0)
  else if closePrice < ema50 ∧ closePrice < ema200 then (0, 2)
  else if closePrice < ema50 ∧ ¬ closePrice < ema200 then (0, 1)
  else (0, 0)

theorem ratingScorePart_eq_spec (rating : ℚ) :
    ratingScorePart rating = specRatingContrib rating := by
  rw [ratingScorePart, specRatingContrib]
  split_ifs <;> simp_all <;> linarith

theorem rsiScorePart_eq_spec (rsi : ℚ) :
    rsiScorePart rsi = specRsiContrib rsi := by
  rw [rsiScorePart, specRsiContrib]
  split_ifs <;> simp_all <;> linarith

theorem trendScorePart_eq_spec (closePrice ema50 ema200 : ℚ) :
    trendScorePart closePrice ema50 ema200 =
      specTrendContrib closePrice ema50 ema200 := by
  rw [trendScorePart, specTrendContrib]
  split_ifs <;> simp_all <;> linarith

end SpecSideDefinitions

section MoreHelpers

theorem mergeSort_four {α : Type} (le : α → α → Bool) (a b c d : α) :
    List.mergeSort [a, b, c, d] le =
      List.merge (List.mergeSort [a, b] le) (List.mergeSort [c, d] le) le := by
  rw [List.mergeSort]
  simp [List.splitInTwo, List.splitAt, List.splitAt.go]

/-- If a BULLISH levels record carries an entry not exceeding 1% above the
close, validation keeps the entry untouched. -/
theorem validateLevels_entryOptimal_bullish (closePrice : ℚ) (l : Levels)
    (hb : l.bias = Bias.BULLISH) (e : ℚ) (he : l.entryOptimal = some e)
    (hle : e ≤ closePrice * (101/100)) :
    (validateLevels closePrice l).entryOptimal = some e := by
  simp only [validateLevels]
  split_ifs <;> simp_all <;> linarith

/-- The best-support choice obtained by `calculate_entry_exit_levels` from
the indicator snapshot on the bullish path. -/
def bullishChoiceOf (closePrice : ℚ) (ind : Indicators) :
    Option (String × ℚ) × ℚ :=
  bullishSupportChoice closePrice (ind.bbLower.getD 0) (ind.sma20.getD 0)
    (buildSupportLevels closePrice (ind.bbLower.getD 0) (ind.sma20.getD 0)
      (ind.ema50.getD 0) (ind.ema200.getD 0))

/-- Provider invocation count of the retry wrapper is bounded by the number
of available attempts. -/
theorem get_analysis_with_retry_calls {α : Type} :
    ∀ (resps : List (FetchResp α)) (delay : ℚ),
      (get_analysis_with_retry resps delay).2.2 ≤ resps.length := by
  intro resps
  induction resps with
  | nil => intro delay; simp [get_analysis_with_retry]
  | cons r rest ih =>
    intro delay
    rcases rest with _ | ⟨r2, rest2⟩ <;> cases r <;>
      simp only [get_analysis_with_retry, List.length] <;>
      first
        | omega
        | (have h := ih (delay * (3/2)); simp only [List.length] at h ⊢; omega)

/-- Empty metrics used as a neutral concrete input in witnesses. -/
def metricsZero : Metrics :=
  { rating := 0, change := 0, bbw := 0, signal := "" }

/-- Scenario A indicator snapshot from the spec's testable properties. -/
def indScenarioA : Indicators :=
  { bbUpper := some 52000, bbLower := some 48000, sma20 := some 49500
    ema50 := some 49000, ema200 := some 47000, rsi := some 25 }

/-- Scenario A metrics (rating 2). -/
def metricsScenarioA : Metrics :=
  { rating := 2, change := 0, bbw := 0, signal := "" }

end MoreHelpers

/-- C3: for every close price, indicator snapshot and metrics,
`calculate_entry_exit_levels` sets the bias to BULLISH iff
`bullish_score > bearish_score`, to BEARISH iff
`bearish_score > bullish_score`, and to NEUTRAL exactly on ties. -/
theorem C3_bias_characterization (closePrice : ℚ) (ind : Indicators)
    (m : Metrics) :
    ((calculate_entry_exit_levels closePrice ind m).bias = Bias.BULLISH ↔
      (scores closePrice ind m).1 > (scores closePrice ind m).2) ∧
    ((calculate_entry_exit_levels closePrice ind m).bias = Bias.BEARISH ↔
      (scores closePrice ind m).2 > (scores closePrice ind m).1) ∧
    ((calculate_entry_exit_levels closePrice ind m).bias = Bias.NEUTRAL ↔
      (scores closePrice ind m).1 = (scores closePrice ind m).2) :=
  ⟨calc_bias_bullish closePrice ind m, calc_bias_bearish closePrice ind m,
    calc_bias_neutral closePrice ind m⟩

/-- C4: the bullish and bearish scores are exactly the sums of the three
contributions described by the spec: rating, RSI, and trend. -/
theorem C4_score_decomposition (closePrice : ℚ) (ind : Indicators)
    (m : Metrics) :
    scores closePrice ind m =
      ((specRatingContrib m.rating).1 + (specRsiContrib (ind.rsi.getD 0)).1 +
        (specTrendContrib closePrice (ind.ema50.getD 0)
          (ind.ema200.getD 0)).1,
       (specRatingContrib m.rating).2 + (specRsiContrib (ind.rsi.getD 0)).2 +
        (specTrendContrib closePrice (ind.ema50.getD 0)
          (ind.ema200.getD 0)).2) := by
  simp only [scores, ratingScorePart_eq_spec, rsiScorePart_eq_spec,
    trendScorePart_eq_spec]

/-- C9: the ATR key is read (with a 3%-of-close default) but never
influences the result: changing only the ATR entry of the snapshot leaves
`calculate_entry_exit_levels` unchanged. -/
theorem C9_atr_irrelevant (closePrice : ℚ) (ind : Indicators) (m : Metrics)
    (a : Option ℚ) :
    calculate_entry_exit_levels closePrice ind m =
      calculate_entry_exit_levels closePrice { ind with atr := a } m := rfl

/-- C10: an absent RSI key is read as 0, which lands in the oversold branch
and adds +2 to the bullish score (and nothing to the bearish score). -/
theorem C10_missing_rsi (closePrice : ℚ) (ind : Indicators) (m : Metrics)
    (h : ind.rsi = none) :
    scores closePrice ind m =
      ((ratingScorePart m.rating).1 + 2 +
        (trendScorePart closePrice (ind.ema50.getD 0) (ind.ema200.getD 0)).1,
       (ratingScorePart m.rating).2 + 0 +
        (trendScorePart closePrice (ind.ema50.getD 0)
          (ind.ema200.getD 0)).2) := by
  simp only [scores, h, Option.getD_none]
  norm_num [rsiScorePart]

/-- Witness for C10 at a concrete snapshot without an RSI key. -/
theorem C10_missing_rsi_witness :
    scores 5 { } metricsZero =
      ((ratingScorePart metricsZero.rating).1 + 2 +
        (trendScorePart 5 (({ } : Indicators).ema50.getD 0)
          (({ } : Indicators).ema200.getD 0)).1,
       (ratingScorePart metricsZero.rating).2 + 0 +
        (trendScorePart 5 (({ } : Indicators).ema50.getD 0)
          (({ } : Indicators).ema200.getD 0)).2) :=
  C10_missing_rsi 5 { } metricsZero rfl

/-- C6: the retry wrapper invokes the provider at most once per available
attempt and, on the spec's Scenario C (empty, empty, valid with delay 2),
sleeps 2 then 3 seconds and returns the valid data on the third call. -/
theorem C6_retry_behavior (N : Nat) (resps : List (FetchResp ℚ)) (delay : ℚ)
    (hN : resps.length = N) :
    (get_analysis_with_retry resps delay).2.2 ≤ N ∧
    get_analysis_with_retry
      [FetchResp.empty, FetchResp.empty, FetchResp.valid (777:ℚ)] 2 =
      (some 777, [2, 3], 3) := by
  constructor
  · exact hN ▸ get_analysis_with_retry_calls resps delay
  · norm_num [get_analysis_with_retry]

/-- Witness for C6 at the Scenario C input. -/
theorem C6_retry_behavior_witness :
    (get_analysis_with_retry
      [FetchResp.empty, FetchResp.empty, FetchResp.valid (777:ℚ)] 2).2.2 ≤ 3 ∧
    get_analysis_with_retry
      [FetchResp.empty, FetchResp.empty, FetchResp.valid (777:ℚ)] 2 =
      (some 777, [2, 3], 3) :=
  C6_retry_behavior 3
    [FetchResp.empty, FetchResp.empty, FetchResp.valid (777:ℚ)] 2 rfl

/-- C8: for every behavior of the fetch and metrics collaborators,
`analyze_btc_daily` returns either a fully assembled result or `none`, and
`none` exactly in the listed failure situations; no exception escapes and
there is no partially assembled result. -/
theorem C8_total_or_none (b : OrchestratorBehavior) :
    (analyze_btc_daily b = none ∧ analysisFailure b) ∨
    ∃ ind m, b.fetch = some (SymbolEntry.data ind) ∧
      b.assemblyExc = false ∧ b.computeMetrics ind = some m ∧
      analyze_btc_daily b = some (assembleResult ind m) := by
  rcases hb : b.fetch with _ | entry
  · exact Or.inl ⟨by simp [analyze_btc_daily, hb], Or.inl hb⟩
  · rcases hexc : b.assemblyExc
    · cases entry with
      | missing =>
        exact Or.inl ⟨by simp [analyze_btc_daily, hb, hexc],
          Or.inr (Or.inl hb)⟩
      | null =>
        exact Or.inl ⟨by simp [analyze_btc_daily, hb, hexc],
          Or.inr (Or.inr (Or.inl hb))⟩
      | data ind =>
        rcases hm : b.computeMetrics ind with _ | mm
        · refine Or.inl ⟨by simp [analyze_btc_daily, hb, hexc, hm], ?_⟩
          exact Or.inr (Or.inr (Or.inr (Or.inr ⟨ind, hb, hm⟩)))
        · exact Or.inr ⟨ind, mm, rfl, rfl, hm,
            by simp [analyze_btc_daily, hb, hexc, hm]⟩
    · refine Or.inl ⟨by simp [analyze_btc_daily, hb, hexc], ?_⟩
      exact Or.inr (Or.inr (Or.inr (Or.inl hexc)))

/-- C2 (amended): the support list is sorted by nondecreasing distance below
the price, every support entry is positive, and every support entry other
than the lower Bollinger band is strictly below the price; symmetrically for
the resistance list and the upper Bollinger band.  (The source inserts the
Bollinger bands into these lists without comparing them to the close, and
the stable sort keeps equal-distance levels in insertion order, so the
claim's strictness and its blanket below/above-price property fail.) -/
theorem C2_level_lists (closePrice : ℚ) (ind : Indicators) (m : Metrics) :
    ((calculate_entry_exit_levels closePrice ind m).supportLevels.Pairwise
      (fun a b => closePrice - a.2 ≤ closePrice - b.2) ∧
     ∀ x ∈ (calculate_entry_exit_levels closePrice ind m).supportLevels,
       0 < x.2 ∧ (x.1 ≠ "Bollinger Lower Band" → x.2 < closePrice)) ∧
    ((calculate_entry_exit_levels closePrice ind m).resistanceLevels.Pairwise
      (fun a b => a.2 - closePrice ≤ b.2 - closePrice) ∧
     ∀ x ∈ (calculate_entry_exit_levels closePrice ind m).resistanceLevels,
       0 < x.2 ∧ (x.1 ≠ "Bollinger Upper Band" → closePrice < x.2)) := by
  rw [calc_supportLevels, calc_resistanceLevels]
  exact ⟨⟨sorted_buildSupportLevels closePrice (ind.bbLower.getD 0)
      (ind.sma20.getD 0) (ind.ema50.getD 0) (ind.ema200.getD 0),
    fun x hx => mem_buildSupportLevels hx⟩,
    ⟨sorted_buildResistanceLevels closePrice (ind.bbUpper.getD 0)
      (ind.sma20.getD 0) (ind.ema50.getD 0),
    fun x hx => mem_buildResistanceLevels hx⟩⟩

/-- Counterexample for C2 as stated: with close 50000, a lower Bollinger
band of 60000, and SMA20 = EMA50 = 49000, the support list contains a level
at or above the close (the Bollinger band) and two entries at equal
distance, so it is neither strictly ordered nor entirely below the price. -/
theorem C2_counterexample :
    (calculate_entry_exit_levels 50000
      { bbLower := some 60000, sma20 := some 49000, ema50 := some 49000 }
      metricsZero).supportLevels =
      [("Bollinger Lower Band", 60000), ("SMA20", 49000), ("EMA50", 49000)] ∧
    ¬ specSupportOrdered 50000
      (calculate_entry_exit_levels 50000
        { bbLower := some 60000, sma20 := some 49000, ema50 := some 49000 }
        metricsZero).supportLevels ∧
    ¬ (calculate_entry_exit_levels 50000
      { bbLower := some 60000, sma20 := some 49000, ema50 := some 49000 }
      metricsZero).supportLevels.Pairwise
        (fun a b => (50000:ℚ) - a.2 < 50000 - b.2) := by
  have hlist : (calculate_entry_exit_levels 50000
      { bbLower := some 60000, sma20 := some 49000, ema50 := some 49000 }
      metricsZero).supportLevels =
      [("Bollinger Lower Band", 60000), ("SMA20", 49000),
        ("EMA50", 49000)] := by
    rw [calc_supportLevels]
    rw [buildSupportLevels]
    norm_num
    rw [mergeSort_three, mergeSort_two]
    norm_num [List.merge]
  refine ⟨hlist, ?_, ?_⟩
  · rintro ⟨-, hmem⟩
    have h60 := hmem ("Bollinger Lower Band", 60000) (by rw [hlist]; simp)
    norm_num at h60
  · intro hpair
    rw [hlist] at hpair
    rcases hpair with _ | ⟨-, hpair⟩
    rcases hpair with _ | ⟨hhead, -⟩
    have := hhead ("EMA50", 49000) (by simp)
    norm_num at this

/-- C1 (amended: for a positive close price): after validation, a BULLISH
result with both fields present satisfies `target_1 > entry` and
`entry ≤ close × 1.01`, and a BEARISH result satisfies `target_1 < entry`
and `entry ≥ close × 0.99`.  (At `close_price = 0` the bullish percentage
fallback produces `target_1 = entry = 0` and the auto-correction rewrites it
to the same value, so the strict inequality needs a positive close.) -/
theorem C1_validation_invariant (closePrice : ℚ) (ind : Indicators)
    (m : Metrics) (hc : 0 < closePrice) :
    ((calculate_entry_exit_levels closePrice ind m).bias = Bias.BULLISH →
      ∀ e t,
        (calculate_entry_exit_levels closePrice ind m).entryOptimal = some e →
        (calculate_entry_exit_levels closePrice ind m).tpTarget1 = some t →
        t > e ∧ e ≤ closePrice * (101/100)) ∧
    ((calculate_entry_exit_levels closePrice ind m).bias = Bias.BEARISH →
      ∀ e t,
        (calculate_entry_exit_levels closePrice ind m).entryOptimal = some e →
        (calculate_entry_exit_levels closePrice ind m).tpTarget1 = some t →
        t < e ∧ e ≥ closePrice * (99/100)) := by
  set bl := ind.bbLower.getD 0 with hbl
  set bu := ind.bbUpper.getD 0 with hbu
  set s20 := ind.sma20.getD 0 with hs20
  set e50 := ind.ema50.getD 0 with he50
  set e200 := ind.ema200.getD 0 with he200
  set sup := buildSupportLevels closePrice bl s20 e50 e200 with hsup
  set res := buildResistanceLevels closePrice bu s20 e50 with hres
  constructor
  · intro hbias e t he ht
    rw [calc_bias_bullish] at hbias
    rw [calculate_entry_exit_levels, rawLevels_unfold, ← hbl, ← hs20, ← he50,
      ← he200, ← hbu, ← hsup, ← hres, if_pos hbias] at he ht
    obtain ⟨t₀, hT⟩ := bullishLevels_tpTarget1 closePrice bl s20 sup res
    have hpos : 0 <
        (if (bullishSupportChoice closePrice bl s20 sup).1.isSome ∧
            (bullishSupportChoice closePrice bl s20 sup).2 ≤ 2 then
          ((bullishSupportChoice closePrice bl s20 sup).1.getD ("", 0)).2 *
            (1002/1000)
        else closePrice) := by
      split_ifs with hch
      · obtain ⟨p, hp⟩ := Option.isSome_iff_exists.mp hch.1
        have hps := bullishSupportChoice_some
          (fun x hx => (mem_buildSupportLevels (hsup ▸ hx)).1) hp
        rw [hp]
        simp only [Option.getD_some]
        nlinarith [hps.1]
      · exact hc
    have hval := validateLevels_bullish closePrice
      (bullishLevels closePrice bl s20 sup res) rfl _ t₀
      (bullishLevels_entryOptimal closePrice bl s20 sup res) hT hpos hc e t
      he ht
    exact ⟨hval.1, hval.2⟩
  · intro hbias e t he ht
    rw [calc_bias_bearish] at hbias
    rw [calculate_entry_exit_levels, rawLevels_unfold, ← hbl, ← hs20, ← he50,
      ← he200, ← hbu, ← hsup, ← hres, if_neg (by omega), if_pos hbias]
      at he ht
    obtain ⟨t₀, hT⟩ := bearishLevels_tpTarget1 closePrice bu s20 sup res
    have hpos : 0 <
        (if (bearishResistanceChoice closePrice bu s20 res).1.isSome ∧
            (bearishResistanceChoice closePrice bu s20 res).2 ≤ 2 then
          ((bearishResistanceChoice closePrice bu s20 res).1.getD ("", 0)).2 *
            (998/1000)
        else closePrice) := by
      split_ifs with hch
      · obtain ⟨p, hp⟩ := Option.isSome_iff_exists.mp hch.1
        have hps := bearishResistanceChoice_some
          (fun x hx => (mem_buildResistanceLevels (hres ▸ hx)).1) hp
        rw [hp]
        simp only [Option.getD_some]
        nlinarith [hps.1]
      · exact hc
    have hval := validateLevels_bearish closePrice
      (bearishLevels closePrice bu s20 sup res) rfl _ t₀
      (bearishLevels_entryOptimal closePrice bu s20 sup res) hT hpos hc e t
      he ht
    exact ⟨hval.1, hval.2⟩

/-- Counterexample for C1 as stated (over all inputs): at close price 0 with
an empty snapshot and rating 0, the bias is BULLISH (missing RSI counts as
oversold), both fields are present, yet `target_1 = entry = 0`, violating
`target_1 > entry` even after validation. -/
theorem C1_counterexample :
    (calculate_entry_exit_levels 0 { } metricsZero).bias = Bias.BULLISH ∧
    (calculate_entry_exit_levels 0 { } metricsZero).entryOptimal = some 0 ∧
    (calculate_entry_exit_levels 0 { } metricsZero).tpTarget1 = some 0 ∧
    ¬ ((0:ℚ) > 0) := by
  refine ⟨?_, ?_, ?_, by norm_num⟩ <;>
    norm_num [calculate_entry_exit_levels, rawLevels, scores, ratingScorePart,
      rsiScorePart, trendScorePart, buildSupportLevels, buildResistanceLevels,
      bullishLevels, bullishSupportChoice, validateLevels, metricsZero]

/-- Witness for C1 at close price 1 with an empty snapshot: the BULLISH
invariant holds there. -/
theorem C1_validation_invariant_witness :
    (1:ℚ) * (106/100) > 1 ∧ (1:ℚ) ≤ 1 * (101/100) :=
  (C1_validation_invariant 1 { } metricsZero (by norm_num)).1
    (by norm_num [calculate_entry_exit_levels, rawLevels, scores,
      ratingScorePart, rsiScorePart, trendScorePart, buildSupportLevels,
      buildResistanceLevels, bullishLevels, bullishSupportChoice,
      validateLevels, metricsZero])
    1 (1 * (106/100))
    (by norm_num [calculate_entry_exit_levels, rawLevels, scores,
      ratingScorePart, rsiScorePart, trendScorePart, buildSupportLevels,
      buildResistanceLevels, bullishLevels, bullishSupportChoice,
      validateLevels, metricsZero])
    (by norm_num [calculate_entry_exit_levels, rawLevels, scores,
      ratingScorePart, rsiScorePart, trendScorePart, buildSupportLevels,
      buildResistanceLevels, bullishLevels, bullishSupportChoice,
      validateLevels, metricsZero])

/-- C5: on the bullish path with a positive close, the entry is the chosen
support times 1.002 when that support lies within 2% below the close, and
the close price otherwise (both when the support is further away and when no
support qualifies); on the spec's Scenario A the scores are (6, 0), the bias
is BULLISH, and the entry is 49500 × 1.002 = 49599. -/
theorem C5_bullish_entry_rule :
    (∀ (closePrice : ℚ) (ind : Indicators) (m : Metrics), 0 < closePrice →
      (calculate_entry_exit_levels closePrice ind m).bias = Bias.BULLISH →
      (((bullishChoiceOf closePrice ind).1.isSome ∧
          (bullishChoiceOf closePrice ind).2 ≤ 2 →
        (calculate_entry_exit_levels closePrice ind m).entryOptimal =
          some (((bullishChoiceOf closePrice ind).1.getD ("", 0)).2 *
            (1002/1000))) ∧
       (¬ ((bullishChoiceOf closePrice ind).1.isSome ∧
          (bullishChoiceOf closePrice ind).2 ≤ 2) →
        (calculate_entry_exit_levels closePrice ind m).entryOptimal =
          some closePrice))) ∧
    scores 50000 indScenarioA metricsScenarioA = (6, 0) ∧
    (calculate_entry_exit_levels 50000 indScenarioA metricsScenarioA).bias =
      Bias.BULLISH ∧
    (calculate_entry_exit_levels 50000 indScenarioA
      metricsScenarioA).entryOptimal = some 49599 := by
  refine ⟨?_, ?_, ?_, ?_⟩
  · intro c ind m hc hbias
    rw [calc_bias_bullish] at hbias
    have hchoice : bullishChoiceOf c ind =
        bullishSupportChoice c (ind.bbLower.getD 0) (ind.sma20.getD 0)
          (buildSupportLevels c (ind.bbLower.getD 0) (ind.sma20.getD 0)
            (ind.ema50.getD 0) (ind.ema200.getD 0)) := rfl
    constructor
    · intro hcond
      obtain ⟨p, hp⟩ := Option.isSome_iff_exists.mp hcond.1
      have hp' : (bullishSupportChoice c (ind.bbLower.getD 0)
          (ind.sma20.getD 0)
          (buildSupportLevels c (ind.bbLower.getD 0) (ind.sma20.getD 0)
            (ind.ema50.getD 0) (ind.ema200.getD 0))).1 = some p :=
        hchoice ▸ hp
      have hps := bullishSupportChoice_some
        (fun x hx => (mem_buildSupportLevels hx).1) hp'
      rw [calculate_entry_exit_levels, rawLevels_unfold, if_pos hbias]
      refine validateLevels_entryOptimal_bullish c _ rfl _ ?_ ?_
      · rw [bullishLevels_entryOptimal, ← hchoice, if_pos hcond]
      · rw [hp]
        simp only [Option.getD_some]
        nlinarith [hps.1, hps.2]
    · intro hcond
      rw [calculate_entry_exit_levels, rawLevels_unfold, if_pos hbias]
      refine validateLevels_entryOptimal_bullish c _ rfl _ ?_ ?_
      · rw [bullishLevels_entryOptimal, ← hchoice, if_neg hcond]
      · nlinarith
  · norm_num [scores, ratingScorePart, rsiScorePart, trendScorePart,
      indScenarioA, metricsScenarioA]
  · norm_num [calculate_entry_exit_levels, rawLevels, scores, ratingScorePart,
      rsiScorePart, trendScorePart, buildSupportLevels, buildResistanceLevels,
      bullishLevels, bullishSupportChoice, validateLevels,
      mergeSort_four, mergeSort_three, mergeSort_two, List.merge,
      Option.some_ne_none, Option.isSome_some, Option.getD_some,
      indScenarioA, metricsScenarioA]
  · norm_num [calculate_entry_exit_levels, rawLevels, scores, ratingScorePart,
      rsiScorePart, trendScorePart, buildSupportLevels, buildResistanceLevels,
      bullishLevels, bullishSupportChoice, validateLevels,
      mergeSort_four, mergeSort_three, mergeSort_two, List.merge,
      Option.some_ne_none, Option.isSome_some, Option.getD_some,
      indScenarioA, metricsScenarioA]

/-- Witness for C5's general rule at close price 1 with an empty snapshot:
no support qualifies, so the entry is the close price. -/
theorem C5_bullish_entry_rule_witness :
    (calculate_entry_exit_levels 1 { } metricsZero).entryOptimal = some 1 :=
  (C5_bullish_entry_rule.1 1 { } metricsZero (by norm_num)
    (by norm_num [calculate_entry_exit_levels, rawLevels, scores,
      ratingScorePart, rsiScorePart, trendScorePart, buildSupportLevels,
      buildResistanceLevels, bullishLevels, bullishSupportChoice,
      validateLevels, metricsZero])).2
    (by norm_num [bullishChoiceOf, bullishSupportChoice, buildSupportLevels])

/-- C7 (amended: the resistance list must also be empty, and the close
nonnegative): with bias BULLISH, an empty support list and an empty
resistance list, the stop loss is entry × 0.95 and target 1 is
entry × 1.06.  (When a resistance exists, target 1 comes from the
resistance path — 1% below it, or 5% above entry — not from the 6%
fallback.) -/
theorem C7_percentage_fallback (closePrice : ℚ) (ind : Indicators)
    (m : Metrics) (hc : 0 ≤ closePrice)
    (hbias : (calculate_entry_exit_levels closePrice ind m).bias =
      Bias.BULLISH)
    (hsup : (calculate_entry_exit_levels closePrice ind m).supportLevels = [])
    (hres :
      (calculate_entry_exit_levels closePrice ind m).resistanceLevels = []) :
    ∃ e, (calculate_entry_exit_levels closePrice ind m).entryOptimal =
        some e ∧
      (calculate_entry_exit_levels closePrice ind m).stopLossLevel =
        some (e * (95/100)) ∧
      (calculate_entry_exit_levels closePrice ind m).tpTarget1 =
        some (e * (106/100)) := by
  rw [calc_supportLevels] at hsup
  rw [calc_resistanceLevels] at hres
  obtain ⟨h1, h2⟩ := buildSupportLevels_eq_nil hsup
  rw [calc_bias_bullish] at hbias
  refine ⟨closePrice, ?_⟩
  rw [calculate_entry_exit_levels, rawLevels_unfold, if_pos hbias, hsup, hres]
  have hbull : bullishLevels closePrice (ind.bbLower.getD 0)
      (ind.sma20.getD 0) [] [] =
      { currentPrice := closePrice
        supportLevels := []
        resistanceLevels := []
        bias := Bias.BULLISH
        entryOptimal := some closePrice
        stopLossLevel := some (closePrice * (95/100))
        tpTarget1 := some (closePrice * (106/100))
        tpTarget2 := some (closePrice * (112/100)) } := by
    simp [bullishLevels, bullishSupportChoice, h1, h2]
  rw [hbull]
  simp only [validateLevels]
  split_ifs with hcond htp hent hent <;> simp_all <;> nlinarith

/-- Counterexample for C7 as stated: close 50000, an upper Bollinger band of
52000 and nothing else gives bias BULLISH with an empty support list, so the
stop loss is the 5%-below-entry fallback, but target 1 goes through the
resistance path and becomes entry × 1.05 = 52500, not entry × 1.06. -/
theorem C7_counterexample :
    (calculate_entry_exit_levels 50000 { bbUpper := some 52000 }
      metricsZero).bias = Bias.BULLISH ∧
    (calculate_entry_exit_levels 50000 { bbUpper := some 52000 }
      metricsZero).supportLevels = [] ∧
    (calculate_entry_exit_levels 50000 { bbUpper := some 52000 }
      metricsZero).entryOptimal = some 50000 ∧
    (calculate_entry_exit_levels 50000 { bbUpper := some 52000 }
      metricsZero).stopLossLevel = some (50000 * (95/100)) ∧
    (calculate_entry_exit_levels 50000 { bbUpper := some 52000 }
      metricsZero).tpTarget1 = some 52500 ∧
    (52500 : ℚ) ≠ 50000 * (106/100) := by
  refine ⟨?_, ?_, ?_, ?_, ?_, by norm_num⟩ <;>
    norm_num [calculate_entry_exit_levels, rawLevels, scores, ratingScorePart,
      rsiScorePart, trendScorePart, buildSupportLevels, buildResistanceLevels,
      bullishLevels, bullishSupportChoice, validateLevels, metricsZero]

/-- Witness for C7 at close price 1 with an empty snapshot: both candidate
lists are empty, the bias is BULLISH, and the percentage fallback applies. -/
theorem C7_percentage_fallback_witness :
    ∃ e, (calculate_entry_exit_levels 1 { } metricsZero).entryOptimal =
        some e ∧
      (calculate_entry_exit_levels 1 { } metricsZero).stopLossLevel =
        some (e * (95/100)) ∧
      (calculate_entry_exit_levels 1 { } metricsZero).tpTarget1 =
        some (e * (106/100)) :=
  C7_percentage_fallback 1 { } metricsZero (by norm_num)
    (by norm_num [calculate_entry_exit_levels, rawLevels, scores,
      ratingScorePart, rsiScorePart, trendScorePart, buildSupportLevels,
      buildResistanceLevels, bullishLevels, bullishSupportChoice,
      validateLevels, metricsZero])
    (by rw [calc_supportLevels]; norm_num [buildSupportLevels])
    (by rw [calc_resistanceLevels]; norm_num [buildResistanceLevels])

/-- Counterexample for C5 as stated (over all inputs): at close price -1
with EMA50 = EMA200 = -2 the bias is BULLISH and no support qualifies, so
the rule prescribes entry = close price; but the validation step sees
`entry > close × 1.01` (both negative) and overrides the entry to
close × 0.99 = -0.99 ≠ -1. -/
theorem C5_counterexample :
    (calculate_entry_exit_levels (-1)
      { ema50 := some (-2), ema200 := some (-2) } metricsZero).bias =
      Bias.BULLISH ∧
    (bullishChoiceOf (-1) { ema50 := some (-2), ema200 := some (-2) }).1 =
      none ∧
    (calculate_entry_exit_levels (-1)
      { ema50 := some (-2), ema200 := some (-2) } metricsZero).entryOptimal =
      some (-(99/100)) ∧
    ¬ (some (-(99/100) : ℚ) = some ((-1) : ℚ)) := by
  refine ⟨?_, ?_, ?_, by norm_num⟩ <;>
    norm_num [calculate_entry_exit_levels, rawLevels, scores, ratingScorePart,
      rsiScorePart, trendScorePart, buildSupportLevels, buildResistanceLevels,
      bullishLevels, bullishSupportChoice, bullishChoiceOf, validateLevels,
      metricsZero]
